import Mathlib

/-!
Verification of the ProManage state store (`src/store/useStore.ts`).

The store is a single state container holding the session user, the
project list, the task list and a theme flag, together with a credential
list kept under a separate storage key.  Every operation below is a
direct shallow embedding of the corresponding arrow function in
`useStore.ts`; the nondeterministic inputs of the original code
(`generateId()` results and `new Date().toISOString()` timestamps) are
passed in as explicit string arguments.
-/

set_option autoImplicit false

namespace ProManage

/-- Task status enumeration: `'todo' | 'in-progress' | 'completed'`. -/
inductive TaskStatus where
  | todo
  | inProgress
  | completed
deriving DecidableEq, Repr

/-- Task priority enumeration: `'low' | 'medium' | 'high'`. -/
inductive TaskPriority where
  | low
  | medium
  | high
deriving DecidableEq, Repr

/-- Theme flag: `'light' | 'dark'`. -/
inductive Theme where
  | light
  | dark
deriving DecidableEq, Repr

/-- The session user (`interface User`): id, name, email, optional avatar. -/
structure User where
  id : String
  name : String
  email : String
  avatar : Option String := none
deriving DecidableEq, Repr

/-- A project (`interface Project`). -/
structure Project where
  id : String
  name : String
  description : String
  color : String
  createdAt : String
deriving DecidableEq, Repr

/-- A task (`interface Task`). -/
structure Task where
  id : String
  projectId : String
  title : String
  description : String
  status : TaskStatus
  priority : TaskPriority
  dueDate : String
  createdAt : String
deriving DecidableEq, Repr

/-- A credential record stored under the `promanage-users` key:
`{ id, name, email, password }`.  `register` always writes a non-empty
generated id; the inline annotation in `login` types the field as
`id?: string`, and since its only use is the JavaScript-falsy test
`user.id || generateId()`, an absent id is represented here by the empty
string (both are falsy, so the two are observationally equal). -/
structure Account where
  id : String
  name : String
  email : String
  password : String
deriving DecidableEq, Repr

/-- The in-memory application state held by the zustand store:
`{ user, projects, tasks, theme }`. -/
structure AppState where
  user : Option User
  projects : List Project
  tasks : List Task
  theme : Theme
deriving DecidableEq, Repr

/-- The initial state of the store before any snapshot is rehydrated:
`user: null, projects: [], tasks: [], theme: 'light'`. -/
def initialState : AppState :=
  { user := none, projects := [], tasks := [], theme := Theme.light }

/-- Embedding of `user.id || generateId()`: the stored id when it is
truthy (non-empty), otherwise the freshly generated one. -/
def jsIdOr (id fresh : String) : String :=
  if id = "" then fresh else id

/-- `login(email, password)`: looks up the first stored account whose
email and password both match; on a hit, sets the session user to that
account's public fields and returns `true`, otherwise returns `false`
and leaves the state alone.  `newId` is the value `generateId()` would
produce if the stored account lacks an id. -/
def login (email password newId : String) (storedUsers : List Account)
    (s : AppState) : Bool × AppState :=
  match storedUsers.find? (fun u => u.email == email && u.password == password) with
  | some u =>
      (true, { s with user := some { id := jsIdOr u.id newId, name := u.name, email := u.email } })
  | none => (false, s)

/-- `register(name, email, password)`: fails if some stored account
already has the email; otherwise pushes a new account (with generated id
`newId`) onto the credential list, rewrites that list, and sets the
session user to the new account's public fields.  Returns the success
flag, the resulting credential list and the resulting state. -/
def register (name email password newId : String) (storedUsers : List Account)
    (s : AppState) : Bool × List Account × AppState :=
  if (storedUsers.find? (fun u => u.email == email)).isSome then
    (false, storedUsers, s)
  else
    let newUser : Account := { id := newId, name := name, email := email, password := password }
    (true, storedUsers ++ [newUser],
      { s with user := some { id := newUser.id, name := name, email := email } })

/-- `logout()`: clears the session user. -/
def logout (s : AppState) : AppState :=
  { s with user := none }

/-- The argument of `addProject` (`Omit<Project, 'id' | 'createdAt'>`). -/
structure ProjectFields where
  name : String
  description : String
  color : String
deriving DecidableEq, Repr

/-- The entity `{ ...project, id: generateId(), createdAt: new Date().toISOString() }`. -/
def mkProject (f : ProjectFields) (newId now : String) : Project :=
  { name := f.name, description := f.description, color := f.color,
    id := newId, createdAt := now }

/-- `addProject(project)`: appends the newly built project to the list. -/
def addProject (f : ProjectFields) (newId now : String) (s : AppState) : AppState :=
  { s with projects := s.projects ++ [mkProject f newId now] }

/-- A `Partial<Project>` value: each field of `Project` is either absent
or present with a new value. -/
structure ProjectPatch where
  id : Option String := none
  name : Option String := none
  description : Option String := none
  color : Option String := none
  createdAt : Option String := none
deriving DecidableEq, Repr

/-- The object spread `{ ...p, ...project }`: fields present in the
patch override the corresponding fields of `p`. -/
def applyProjectPatch (p : Project) (q : ProjectPatch) : Project :=
  { id := q.id.getD p.id, name := q.name.getD p.name,
    description := q.description.getD p.description,
    color := q.color.getD p.color, createdAt := q.createdAt.getD p.createdAt }

/-- `updateProject(id, project)`: maps over the list, merging the patch
into every project whose id matches. -/
def updateProject (id : String) (q : ProjectPatch) (s : AppState) : AppState :=
  { s with projects := s.projects.map (fun p => if p.id == id then applyProjectPatch p q else p) }

/-- `deleteProject(id)`: drops the projects with that id and every task
whose `projectId` equals it. -/
def deleteProject (id : String) (s : AppState) : AppState :=
  { s with projects := s.projects.filter (fun p => p.id != id),
           tasks := s.tasks.filter (fun t => t.projectId != id) }

/-- The argument of `addTask` (`Omit<Task, 'id' | 'createdAt'>`). -/
structure TaskFields where
  projectId : String
  title : String
  description : String
  status : TaskStatus
  priority : TaskPriority
  dueDate : String
deriving DecidableEq, Repr

/-- The entity `{ ...task, id: generateId(), createdAt: new Date().toISOString() }`. -/
def mkTask (f : TaskFields) (newId now : String) : Task :=
  { projectId := f.projectId, title := f.title, description := f.description,
    status := f.status, priority := f.priority, dueDate := f.dueDate,
    id := newId, createdAt := now }

/-- `addTask(task)`: appends the newly built task to the list. -/
def addTask (f : TaskFields) (newId now : String) (s : AppState) : AppState :=
  { s with tasks := s.tasks ++ [mkTask f newId now] }

/-- A `Partial<Task>` value. -/
structure TaskPatch where
  id : Option String := none
  projectId : Option String := none
  title : Option String := none
  description : Option String := none
  status : Option TaskStatus := none
  priority : Option TaskPriority := none
  dueDate : Option String := none
  createdAt : Option String := none
deriving DecidableEq, Repr

/-- The object spread `{ ...t, ...task }`. -/
def applyTaskPatch (t : Task) (q : TaskPatch) : Task :=
  { id := q.id.getD t.id, projectId := q.projectId.getD t.projectId,
    title := q.title.getD t.title, description := q.description.getD t.description,
    status := q.status.getD t.status, priority := q.priority.getD t.priority,
    dueDate := q.dueDate.getD t.dueDate, createdAt := q.createdAt.getD t.createdAt }

/-- `updateTask(id, task)`: maps over the list, merging the patch into
every task whose id matches. -/
def updateTask (id : String) (q : TaskPatch) (s : AppState) : AppState :=
  { s with tasks := s.tasks.map (fun t => if t.id == id then applyTaskPatch t q else t) }

/-- `deleteTask(id)`: drops the tasks with that id. -/
def deleteTask (id : String) (s : AppState) : AppState :=
  { s with tasks := s.tasks.filter (fun t => t.id != id) }

/-- `toggleTheme()`: flips the two-valued theme. -/
def toggleTheme (s : AppState) : AppState :=
  { s with theme := if s.theme == Theme.light then Theme.dark else Theme.light }

/-- `setTheme(theme)`: overwrites the theme. -/
def setTheme (t : Theme) (s : AppState) : AppState :=
  { s with theme := t }

/-! ### Persistence

The persist middleware configured with `name: 'promanage-storage'` (and
no `partialize`) serializes the whole `{ user, projects, tasks, theme }`
record to JSON and writes it under that key after every `set`; at
startup it reads the key back and rehydrates the state, falling back to
the initial state when nothing is stored.  The JSON serialization is
modelled by the `Json` tree below together with total encoders and
partial decoders for every entity. -/

/-- A JSON value, as far as the snapshot needs: strings, arrays,
objects (field lists) and `null`. -/
inductive Json where
  | null : Json
  | str : String → Json
  | arr : List Json → Json
  | obj : List (String × Json) → Json

/-- Looks a key up in a serialized object's field list. -/
def getField (fields : List (String × Json)) (key : String) : Option Json :=
  match fields.find? (fun kv => kv.fst == key) with
  | some kv => some kv.snd
  | none => none

/-- Reads a JSON string. -/
def asStr : Json → Option String
  | Json.str s1 => some s1
  | _ => none

/-- The wire form of a status value. -/
def statusToStr : TaskStatus → String
  | TaskStatus.todo => "todo"
  | TaskStatus.inProgress => "in-progress"
  | TaskStatus.completed => "completed"

/-- Parses the wire form of a status value. -/
def statusOfStr (s1 : String) : Option TaskStatus :=
  if s1 = "todo" then some TaskStatus.todo
  else if s1 = "in-progress" then some TaskStatus.inProgress
  else if s1 = "completed" then some TaskStatus.completed
  else none

/-- The wire form of a priority value. -/
def priorityToStr : TaskPriority → String
  | TaskPriority.low => "low"
  | TaskPriority.medium => "medium"
  | TaskPriority.high => "high"

/-- Parses the wire form of a priority value. -/
def priorityOfStr (s1 : String) : Option TaskPriority :=
  if s1 = "low" then some TaskPriority.low
  else if s1 = "medium" then some TaskPriority.medium
  else if s1 = "high" then some TaskPriority.high
  else none

/-- The wire form of the theme flag. -/
def themeToStr : Theme → String
  | Theme.light => "light"
  | Theme.dark => "dark"

/-- Parses the wire form of the theme flag. -/
def themeOfStr (s1 : String) : Option Theme :=
  if s1 = "light" then some Theme.light
  else if s1 = "dark" then some Theme.dark
  else none

/-- Serializes the session user. -/
def encodeUser (u : User) : Json :=
  Json.obj [("id", Json.str u.id), ("name", Json.str u.name),
    ("email", Json.str u.email),
    ("avatar", match u.avatar with | some a => Json.str a | none => Json.null)]

/-- Deserializes the session user. -/
def decodeUser : Json → Option User
  | Json.obj fs => do
      let id ← (getField fs "id").bind asStr
      let name ← (getField fs "name").bind asStr
      let email ← (getField fs "email").bind asStr
      let avatar : Option String :=
        match getField fs "avatar" with
        | some (Json.str a) => some a
        | _ => none
      pure { id := id, name := name, email := email, avatar := avatar }
  | _ => none

/-- Serializes a project. -/
def encodeProject (p : Project) : Json :=
  Json.obj [("id", Json.str p.id), ("name", Json.str p.name),
    ("description", Json.str p.description), ("color", Json.str p.color),
    ("createdAt", Json.str p.createdAt)]

/-- Deserializes a project. -/
def decodeProject : Json → Option Project
  | Json.obj fs => do
      let id ← (getField fs "id").bind asStr
      let name ← (getField fs "name").bind asStr
      let description ← (getField fs "description").bind asStr
      let color ← (getField fs "color").bind asStr
      let createdAt ← (getField fs "createdAt").bind asStr
      pure { id := id, name := name, description := description,
             color := color, createdAt := createdAt }
  | _ => none

/-- Serializes a task. -/
def encodeTask (t : Task) : Json :=
  Json.obj [("id", Json.str t.id), ("projectId", Json.str t.projectId),
    ("title", Json.str t.title), ("description", Json.str t.description),
    ("status", Json.str (statusToStr t.status)),
    ("priority", Json.str (priorityToStr t.priority)),
    ("dueDate", Json.str t.dueDate), ("createdAt", Json.str t.createdAt)]

/-- Deserializes a task. -/
def decodeTask : Json → Option Task
  | Json.obj fs => do
      let id ← (getField fs "id").bind asStr
      let projectId ← (getField fs "projectId").bind asStr
      let title ← (getField fs "title").bind asStr
      let description ← (getField fs "description").bind asStr
      let st ← ((getField fs "status").bind asStr).bind statusOfStr
      let pr ← ((getField fs "priority").bind asStr).bind priorityOfStr
      let dueDate ← (getField fs "dueDate").bind asStr
      let createdAt ← (getField fs "createdAt").bind asStr
      pure { id := id, projectId := projectId, title := title,
             description := description, status := st, priority := pr,
             dueDate := dueDate, createdAt := createdAt }
  | _ => none

/-- Deserializes a serialized project list element by element. -/
def decodeProjectList : List Json → Option (List Project)
  | [] => some []
  | j :: rest => do
      let p ← decodeProject j
      let ps ← decodeProjectList rest
      pure (p :: ps)

/-- Deserializes a serialized task list element by element. -/
def decodeTaskList : List Json → Option (List Task)
  | [] => some []
  | j :: rest => do
      let t ← decodeTask j
      let ts ← decodeTaskList rest
      pure (t :: ts)

/-- Serializes the whole snapshot `{ user, projects, tasks, theme }`. -/
def encodeState (s : AppState) : Json :=
  Json.obj [
    ("user", match s.user with | some u => encodeUser u | none => Json.null),
    ("projects", Json.arr (s.projects.map encodeProject)),
    ("tasks", Json.arr (s.tasks.map encodeTask)),
    ("theme", Json.str (themeToStr s.theme))]

/-- Deserializes the `user` field of a snapshot: `null` stands for the
absent session user. -/
def decodeUserField : Json → Option (Option User)
  | Json.null => some none
  | j => (decodeUser j).map some

/-- Deserializes the whole snapshot. -/
def decodeState : Json → Option AppState
  | Json.obj fs => do
      let user : Option User ←
        match getField fs "user" with
        | some j => decodeUserField j
        | none => none
      let projects ←
        match getField fs "projects" with
        | some (Json.arr js) => decodeProjectList js
        | _ => none
      let tasks ←
        match getField fs "tasks" with
        | some (Json.arr js) => decodeTaskList js
        | _ => none
      let theme ←
        match getField fs "theme" with
        | some j => (asStr j).bind themeOfStr
        | none => none
      pure { user := user, projects := projects, tasks := tasks, theme := theme }
  | _ => none

/-- Rehydration at process start: the stored snapshot, if any, is read
back in full; with no snapshot (or an unreadable one) the store keeps
its initial state. -/
def loadSnapshot (stored : Option Json) : AppState :=
  match stored with
  | some j => (decodeState j).getD initialState
  | none => initialState

/-! ### The store with its two storage records

`Store` pairs the in-memory state with the two persisted records: the
credential list under `promanage-users` and the snapshot under
`promanage-storage`.  `Op` enumerates the store's operations, each
carrying the caller-supplied arguments plus the id/timestamp the
original code draws from `generateId()` / `new Date()`.  `stepStore`
runs one operation: every branch of the original code that calls `set`
is followed here by overwriting the snapshot with the serialization of
the new state, exactly as the persist middleware does; branches that
return without calling `set` (failed login, failed register) leave the
snapshot untouched. -/

/-- One invocation of a store operation. -/
inductive Op where
  | register (name email password newId : String)
  | login (email password newId : String)
  | logout
  | addProject (f : ProjectFields) (newId now : String)
  | updateProject (id : String) (q : ProjectPatch)
  | deleteProject (id : String)
  | addTask (f : TaskFields) (newId now : String)
  | updateTask (id : String) (q : TaskPatch)
  | deleteTask (id : String)
  | toggleTheme
  | setTheme (t : Theme)

/-- The in-memory state plus the two persisted records. -/
structure Store where
  state : AppState
  storedUsers : List Account
  snapshot : Option Json

/-- Runs one operation, mirroring each `set` with a snapshot write. -/
def stepStore (op : Op) (st : Store) : Store :=
  match op with
  | Op.register name email password newId =>
      let r := register name email password newId st.storedUsers st.state
      if r.fst then
        { state := r.snd.snd, storedUsers := r.snd.fst,
          snapshot := some (encodeState r.snd.snd) }
      else
        { st with state := r.snd.snd, storedUsers := r.snd.fst }
  | Op.login email password newId =>
      let r := login email password newId st.storedUsers st.state
      if r.fst then
        { st with state := r.snd, snapshot := some (encodeState r.snd) }
      else
        { st with state := r.snd }
  | Op.logout =>
      let s := logout st.state
      { st with state := s, snapshot := some (encodeState s) }
  | Op.addProject f newId now =>
      let s := addProject f newId now st.state
      { st with state := s, snapshot := some (encodeState s) }
  | Op.updateProject id q =>
      let s := updateProject id q st.state
      { st with state := s, snapshot := some (encodeState s) }
  | Op.deleteProject id =>
      let s := deleteProject id st.state
      { st with state := s, snapshot := some (encodeState s) }
  | Op.addTask f newId now =>
      let s := addTask f newId now st.state
      { st with state := s, snapshot := some (encodeState s) }
  | Op.updateTask id q =>
      let s := updateTask id q st.state
      { st with state := s, snapshot := some (encodeState s) }
  | Op.deleteTask id =>
      let s := deleteTask id st.state
      { st with state := s, snapshot := some (encodeState s) }
  | Op.toggleTheme =>
      let s := toggleTheme st.state
      { st with state := s, snapshot := some (encodeState s) }
  | Op.setTheme t =>
      let s := setTheme t st.state
      { st with state := s, snapshot := some (encodeState s) }

/-! ### Shared lemmas -/

/-- Decoding inverts encoding on session users. -/
theorem decodeUser_encodeUser (u : User) : decodeUser (encodeUser u) = some u := by
  rcases u with ⟨i, n, e, a⟩
  cases a <;> rfl

/-- Decoding inverts encoding on projects. -/
theorem decodeProject_encodeProject (p : Project) :
    decodeProject (encodeProject p) = some p := by
  rcases p with ⟨i, n, d, c, ca⟩
  rfl

/-- Decoding inverts encoding on tasks. -/
theorem decodeTask_encodeTask (t : Task) : decodeTask (encodeTask t) = some t := by
  rcases t with ⟨i, pid, ti, d, st, pr, dd, ca⟩
  cases st <;> cases pr <;> rfl

/-- Decoding inverts encoding on project lists. -/
theorem decodeProjectList_map (ps : List Project) :
    decodeProjectList (ps.map encodeProject) = some ps := by
  induction ps with
  | nil => rfl
  | cons p rest ih =>
      simp [List.map, decodeProjectList, decodeProject_encodeProject, ih]

/-- Decoding inverts encoding on task lists. -/
theorem decodeTaskList_map (ts : List Task) :
    decodeTaskList (ts.map encodeTask) = some ts := by
  induction ts with
  | nil => rfl
  | cons t rest ih =>
      simp [List.map, decodeTaskList, decodeTask_encodeTask, ih]

/-- Decoding inverts encoding on the theme flag. -/
theorem themeOfStr_toStr (x : Theme) : themeOfStr (themeToStr x) = some x := by
  cases x <;> rfl

/-- Decoding inverts encoding on the optional session user. -/
theorem decodeUserField_encodeUser (u : User) :
    decodeUserField (encodeUser u) = some (some u) := by
  rcases u with ⟨i, n, e, a⟩
  cases a <;> rfl

/-- Decoding inverts encoding on whole snapshots. -/
theorem decodeState_encodeState (s : AppState) : decodeState (encodeState s) = some s := by
  rcases s with ⟨u, ps, ts, th⟩
  cases u with
  | none =>
      simp [encodeState, decodeState, getField, List.find?, decodeProjectList_map,
        decodeTaskList_map, themeOfStr_toStr, asStr, decodeUserField]
  | some u0 =>
      simp [encodeState, decodeState, getField, List.find?, decodeProjectList_map,
        decodeTaskList_map, themeOfStr_toStr, asStr, decodeUserField_encodeUser]

/-- With no matching credentials, the `find` in `login` comes up empty. -/
theorem login_find_none (email password : String) (us : List Account)
    (h : ∀ u ∈ us, ¬(u.email = email ∧ u.password = password)) :
    us.find? (fun u => u.email == email && u.password == password) = none := by
  rw [List.find?_eq_none]
  intro u hu
  simp only [Bool.and_eq_true, beq_iff_eq]
  exact fun hc => h u hu hc

/-- A failed `login` returns the state unchanged. -/
theorem login_fst_false_snd (email password newId : String) (us : List Account)
    (s : AppState) (h : (login email password newId us s).fst = false) :
    (login email password newId us s).snd = s := by
  unfold login at h ⊢
  cases hf : us.find? (fun u => u.email == email && u.password == password) <;>
    simp [hf] at h ⊢

/-- A failed `register` returns the credential list and state unchanged. -/
theorem register_fst_false_snd (name email password newId : String) (us : List Account)
    (s : AppState) (h : (register name email password newId us s).fst = false) :
    (register name email password newId us s).snd = (us, s) := by
  unfold register at h ⊢
  by_cases hc : (us.find? (fun u => u.email == email)).isSome = true
  · simp [hc]
  · simp [hc] at h



/-! ### The claims -/

/-- Demo credential record used by concrete witnesses. -/
def demoAccount : Account :=
  { id := "u1", name := "Alice", email := "a@b.c", password := "pw1234" }

/-- C1: when some stored account matches both email and password (emails
being unique among stored accounts, and the account carrying an id),
`login` returns `true` and sets the session user to that account's
public fields; when no account matches both, `login` returns `false`. -/
theorem login_matches_account (email password newId : String)
    (us : List Account) (s : AppState)
    (huniq : ∀ a ∈ us, ∀ b ∈ us, a.email = b.email → a = b) :
    (∀ acc ∈ us, acc.email = email → acc.password = password → acc.id ≠ "" →
      login email password newId us s =
        (true, { s with user := some { id := acc.id, name := acc.name, email := acc.email } })) ∧
    ((∀ u ∈ us, ¬(u.email = email ∧ u.password = password)) →
      (login email password newId us s).fst = false) := by
  constructor
  · intro acc hmem he hp hid
    have hsome : (us.find? (fun u => u.email == email && u.password == password)).isSome := by
      rw [List.find?_isSome]
      exact ⟨acc, hmem, by simp [he, hp]⟩
    obtain ⟨u, hf⟩ := Option.isSome_iff_exists.mp hsome
    have hpred := List.find?_some hf
    simp only [Bool.and_eq_true, beq_iff_eq] at hpred
    have humem := List.mem_of_find?_eq_some hf
    have hua : u = acc := huniq u humem acc hmem (hpred.1.trans he.symm)
    subst hua
    simp [login, hf, jsIdOr, hid]
  · intro h
    simp [login, login_find_none email password us h]

/-- C1 witness at a concrete store. -/
theorem login_matches_account_witness :
    (login "a@b.c" "pw1234" "fresh" [demoAccount] initialState =
      (true, { initialState with
        user := some { id := "u1", name := "Alice", email := "a@b.c" } })) ∧
    (login "a@b.c" "wrong" "fresh" [demoAccount] initialState).fst = false :=
  ⟨(login_matches_account "a@b.c" "pw1234" "fresh" [demoAccount] initialState
      (by decide)).1 demoAccount (by decide) rfl rfl (by decide),
   (login_matches_account "a@b.c" "wrong" "fresh" [demoAccount] initialState
      (by decide)).2 (by decide)⟩

/-- C2: `register` with an already-taken email fails and changes nothing;
with a fresh email it appends exactly one new account with the generated
id and makes it the session user. -/
theorem register_unique_email (name email password newId : String)
    (us : List Account) (s : AppState) :
    ((∃ u ∈ us, u.email = email) →
      register name email password newId us s = (false, us, s)) ∧
    ((∀ u ∈ us, u.email ≠ email) →
      register name email password newId us s =
        (true, us ++ [{ id := newId, name := name, email := email, password := password }],
          { s with user := some { id := newId, name := name, email := email } })) := by
  constructor
  · rintro ⟨u, hu, he⟩
    have hsome : (us.find? (fun u => u.email == email)).isSome := by
      rw [List.find?_isSome]
      exact ⟨u, hu, by simp [he]⟩
    simp [register, hsome]
  · intro h
    have hnone : us.find? (fun u => u.email == email) = none := by
      rw [List.find?_eq_none]
      intro u hu
      simp [h u hu]
    simp [register, hnone]

/-- C2 witness at a concrete store. -/
theorem register_unique_email_witness :
    (register "Bob" "a@b.c" "x" "u2" [demoAccount] initialState =
      (false, [demoAccount], initialState)) ∧
    (register "Bob" "b@b.c" "x" "u2" [demoAccount] initialState =
      (true, [demoAccount, { id := "u2", name := "Bob", email := "b@b.c", password := "x" }],
        { initialState with user := some { id := "u2", name := "Bob", email := "b@b.c" } })) :=
  by
  have h1 : ∃ u ∈ [demoAccount], u.email = "a@b.c" := by decide
  have h2 : ∀ u ∈ [demoAccount], u.email ≠ "b@b.c" := by decide
  exact ⟨(register_unique_email "Bob" "a@b.c" "x" "u2" [demoAccount] initialState).1 h1,
    (register_unique_email "Bob" "b@b.c" "x" "u2" [demoAccount] initialState).2 h2⟩

/-- C3: `deleteProject id` removes exactly the projects with that id and
exactly the tasks referencing it; the surviving projects and tasks are
kept unchanged and in order (sublists of the originals), and the session
user and theme are untouched. -/
theorem deleteProject_cascade (id : String) (s : AppState) :
    (∀ p, p ∈ (deleteProject id s).projects ↔ p ∈ s.projects ∧ p.id ≠ id) ∧
    (∀ t, t ∈ (deleteProject id s).tasks ↔ t ∈ s.tasks ∧ t.projectId ≠ id) ∧
    (deleteProject id s).projects.Sublist s.projects ∧
    (deleteProject id s).tasks.Sublist s.tasks ∧
    (deleteProject id s).user = s.user ∧
    (deleteProject id s).theme = s.theme := by
  refine ⟨?_, ?_, List.filter_sublist s.projects, List.filter_sublist s.tasks, rfl, rfl⟩
  · intro p
    simp [deleteProject, List.mem_filter]
  · intro t
    simp [deleteProject, List.mem_filter]

/-- Patch that sets only the `status` field, as in
`updateTask(id, { status })`. -/
def statusPatch (st : TaskStatus) : TaskPatch := { status := some st }

/-- C4: a status-only `updateTask` rewrites the task list by changing
exactly the status of the tasks whose id matches, leaving all their
other fields, every other task, and the rest of the state unchanged. -/
theorem updateTask_status_only (id : String) (st : TaskStatus) (s : AppState) :
    (updateTask id (statusPatch st) s).tasks =
      s.tasks.map (fun t => if t.id = id then { t with status := st } else t) ∧
    (∀ t : Task, ({ t with status := st } : Task).id = t.id ∧
      ({ t with status := st } : Task).projectId = t.projectId ∧
      ({ t with status := st } : Task).title = t.title ∧
      ({ t with status := st } : Task).description = t.description ∧
      ({ t with status := st } : Task).priority = t.priority ∧
      ({ t with status := st } : Task).dueDate = t.dueDate ∧
      ({ t with status := st } : Task).createdAt = t.createdAt ∧
      ({ t with status := st } : Task).status = st) ∧
    (updateTask id (statusPatch st) s).projects = s.projects ∧
    (updateTask id (statusPatch st) s).user = s.user ∧
    (updateTask id (statusPatch st) s).theme = s.theme := by
  refine ⟨?_, fun t => ⟨rfl, rfl, rfl, rfl, rfl, rfl, rfl, rfl⟩, rfl, rfl, rfl⟩
  simp only [updateTask]
  apply List.map_congr_left
  intro t _
  by_cases h : t.id = id <;> simp [h, applyTaskPatch, statusPatch]

/-- A task whose `projectId` references no existing project. -/
def orphanTask : Task :=
  { id := "t1", projectId := "p1", title := "orphan", description := "",
    status := TaskStatus.todo, priority := TaskPriority.low,
    dueDate := "", createdAt := "" }

/-- A state holding only `orphanTask` and no projects. -/
def orphanState : AppState :=
  { user := none, projects := [], tasks := [orphanTask], theme := Theme.light }

/-- C5 counterexample: `"p1"` names no project of `orphanState`, yet
`deleteProject "p1"` changes the state — it removes the task whose
`projectId` is `"p1"`, so the call is not a no-op. -/
theorem deleteProject_absent_id_not_noop :
    (∀ p ∈ orphanState.projects, p.id ≠ "p1") ∧
    deleteProject "p1" orphanState ≠ orphanState := by
  decide

/-- C5 amended: each operation is a silent no-op exactly under the
absence its own lookup tests — `updateProject` whenever no project has
the id, `updateTask` and `deleteTask` whenever no task has the id
(orphan tasks or not), and `deleteProject` on an id naming no project
provided additionally that no task references the id (otherwise
`deleteProject` still removes the referencing tasks). -/
theorem noop_on_absent_id (id : String) (s : AppState)
    (qp : ProjectPatch) (qt : TaskPatch) :
    ((∀ p ∈ s.projects, p.id ≠ id) → updateProject id qp s = s) ∧
    ((∀ t ∈ s.tasks, t.id ≠ id) → updateTask id qt s = s ∧ deleteTask id s = s) ∧
    ((∀ p ∈ s.projects, p.id ≠ id) → (∀ t ∈ s.tasks, t.projectId ≠ id) →
      deleteProject id s = s) := by
  refine ⟨?_, ?_, ?_⟩
  · intro hp
    have hmp : s.projects.map (fun p => if p.id == id then applyProjectPatch p qp else p)
        = s.projects := by
      rw [show s.projects.map (fun p => if p.id == id then applyProjectPatch p qp else p)
            = s.projects.map (fun p => p) from
          List.map_congr_left (fun p hpmem => by simp [hp p hpmem])]
      exact List.map_id' s.projects
    simp only [updateProject, hmp]
  · intro ht
    have hmt : s.tasks.map (fun t => if t.id == id then applyTaskPatch t qt else t)
        = s.tasks := by
      rw [show s.tasks.map (fun t => if t.id == id then applyTaskPatch t qt else t)
            = s.tasks.map (fun t => t) from
          List.map_congr_left (fun t htmem => by simp [ht t htmem])]
      exact List.map_id' s.tasks
    have htid : s.tasks.filter (fun t => t.id != id) = s.tasks := by
      rw [List.filter_eq_self]
      intro t htmem
      simpa using ht t htmem
    constructor
    · simp only [updateTask, hmt]
    · simp only [deleteTask, htid]
  · intro hp horphan
    have hproj : s.projects.filter (fun p => p.id != id) = s.projects := by
      rw [List.filter_eq_self]
      intro p hpmem
      simpa using hp p hpmem
    have htask : s.tasks.filter (fun t => t.projectId != id) = s.tasks := by
      rw [List.filter_eq_self]
      intro t htmem
      simpa using horphan t htmem
    simp only [deleteProject, hproj, htask]

/-- A project and a task referencing it, used by concrete witnesses. -/
def demoProject : Project :=
  { id := "p2", name := "Demo", description := "", color := "blue", createdAt := "2026" }

/-- A task belonging to `demoProject`. -/
def demoTask : Task :=
  { id := "t2", projectId := "p2", title := "demo", description := "",
    status := TaskStatus.todo, priority := TaskPriority.medium,
    dueDate := "", createdAt := "2026" }

/-- A state holding `demoProject` and `demoTask`. -/
def demoState : AppState :=
  { user := none, projects := [demoProject], tasks := [demoTask], theme := Theme.light }

/-- C5 witness: on the orphan state itself — where `"p1"` names no
project and no task — `updateProject`, `updateTask` and `deleteTask`
are no-ops at id `"p1"` despite the orphan's `projectId` being `"p1"`,
and on `demoState` the unreferenced absent id `"zzz"` makes
`deleteProject` a no-op too. -/
theorem noop_on_absent_id_witness :
    updateProject "p1" {} orphanState = orphanState ∧
    updateTask "p1" {} orphanState = orphanState ∧
    deleteTask "p1" orphanState = orphanState ∧
    deleteProject "zzz" demoState = demoState := by
  have h1 : ∀ p ∈ orphanState.projects, p.id ≠ "p1" := by decide
  have h2 : ∀ t ∈ orphanState.tasks, t.id ≠ "p1" := by decide
  have h3 : ∀ p ∈ demoState.projects, p.id ≠ "zzz" := by decide
  have h4 : ∀ t ∈ demoState.tasks, t.projectId ≠ "zzz" := by decide
  exact ⟨(noop_on_absent_id "p1" orphanState {} {}).1 h1,
    ((noop_on_absent_id "p1" orphanState {} {}).2.1 h2).1,
    ((noop_on_absent_id "p1" orphanState {} {}).2.1 h2).2,
    (noop_on_absent_id "zzz" demoState {} {}).2.2 h3 h4⟩


/-- C6: reloading the persisted snapshot of any state reproduces that
state exactly, and with no snapshot the store boots into the initial
state (empty collections, no user, light theme). -/
theorem snapshot_roundtrip (s : AppState) :
    loadSnapshot (some (encodeState s)) = s ∧ loadSnapshot none = initialState := by
  constructor
  · simp [loadSnapshot, decodeState_encodeState]
  · rfl

/-- C7: running any store operation preserves the invariant that the
persisted snapshot is exactly the serialization of the in-memory state;
since every branch that changes the state rewrites the snapshot in the
same step, the snapshot never lags the state. -/
theorem step_preserves_snapshot (op : Op) (st : Store)
    (h : st.snapshot = some (encodeState st.state)) :
    (stepStore op st).snapshot = some (encodeState (stepStore op st).state) := by
  cases op with
  | register name email password newId =>
      by_cases hr : (register name email password newId st.storedUsers st.state).fst = true
      · simp [stepStore, hr]
      · have h2 := register_fst_false_snd name email password newId st.storedUsers st.state
          (by simpa using hr)
        simp [stepStore, hr, h2, h]
  | login email password newId =>
      by_cases hr : (login email password newId st.storedUsers st.state).fst = true
      · simp [stepStore, hr]
      · have h2 := login_fst_false_snd email password newId st.storedUsers st.state
          (by simpa using hr)
        simp [stepStore, hr, h2, h]
  | logout => rfl
  | addProject f newId now => rfl
  | updateProject id q => rfl
  | deleteProject id => rfl
  | addTask f newId now => rfl
  | updateTask id q => rfl
  | deleteTask id => rfl
  | toggleTheme => rfl
  | setTheme t => rfl

/-- C7 witness: a concrete step from a consistent store. -/
theorem step_preserves_snapshot_witness :
    (stepStore Op.toggleTheme
      { state := initialState, storedUsers := [], snapshot := some (encodeState initialState) }).snapshot =
    some (encodeState (stepStore Op.toggleTheme
      { state := initialState, storedUsers := [], snapshot := some (encodeState initialState) }).state) :=
  step_preserves_snapshot Op.toggleTheme
    { state := initialState, storedUsers := [], snapshot := some (encodeState initialState) } rfl

/-- C8: `addProject` and `addTask` append exactly one entity — built
from the supplied fields plus the generated id and the timestamp — to
the end of their collection, touching nothing else. -/
theorem add_appends_one (pf : ProjectFields) (tf : TaskFields)
    (i1 n1 i2 n2 : String) (s : AppState) :
    (addProject pf i1 n1 s).projects = s.projects ++ [mkProject pf i1 n1] ∧
    (addProject pf i1 n1 s).tasks = s.tasks ∧
    (addProject pf i1 n1 s).user = s.user ∧
    (addProject pf i1 n1 s).theme = s.theme ∧
    (addTask tf i2 n2 s).tasks = s.tasks ++ [mkTask tf i2 n2] ∧
    (addTask tf i2 n2 s).projects = s.projects ∧
    (addTask tf i2 n2 s).user = s.user ∧
    (addTask tf i2 n2 s).theme = s.theme ∧
    mkProject pf i1 n1 =
      { id := i1, name := pf.name, description := pf.description,
        color := pf.color, createdAt := n1 } ∧
    mkTask tf i2 n2 =
      { id := i2, projectId := tf.projectId, title := tf.title,
        description := tf.description, status := tf.status,
        priority := tf.priority, dueDate := tf.dueDate, createdAt := n2 } :=
  ⟨rfl, rfl, rfl, rfl, rfl, rfl, rfl, rfl, rfl, rfl⟩

/-- C9: `toggleTheme` sends light to dark and dark to light — hence is
an involution on the theme — and `setTheme t` sets the theme to `t`;
neither touches anything else. -/
theorem theme_toggle_involution (s : AppState) (t : Theme) :
    (s.theme = Theme.light → (toggleTheme s).theme = Theme.dark) ∧
    (s.theme = Theme.dark → (toggleTheme s).theme = Theme.light) ∧
    (toggleTheme (toggleTheme s)).theme = s.theme ∧
    (setTheme t s).theme = t := by
  rcases s with ⟨u, ps, ts, th⟩
  cases th <;> simp [toggleTheme, setTheme]

/-- C9 witness: both toggle directions and a set at concrete states. -/
theorem theme_toggle_involution_witness :
    (toggleTheme initialState).theme = Theme.dark ∧
    (toggleTheme (setTheme Theme.dark initialState)).theme = Theme.light ∧
    (toggleTheme (toggleTheme initialState)).theme = initialState.theme ∧
    (setTheme Theme.dark initialState).theme = Theme.dark :=
  ⟨(theme_toggle_involution initialState Theme.dark).1 rfl,
   (theme_toggle_involution (setTheme Theme.dark initialState) Theme.dark).2.1 rfl,
   (theme_toggle_involution initialState Theme.dark).2.2.1,
   (theme_toggle_involution initialState Theme.dark).2.2.2⟩

/-- C10: a `login` with no matching credentials is atomic: it returns
`false` and the entire application state — session user included — is
exactly what it was. -/
theorem login_failure_atomic (email password newId : String)
    (us : List Account) (s : AppState)
    (h : ∀ u ∈ us, ¬(u.email = email ∧ u.password = password)) :
    login email password newId us s = (false, s) := by
  simp [login, login_find_none email password us h]

/-- C10 witness: a wrong-password login at a concrete store with a live
session changes nothing. -/
theorem login_failure_atomic_witness :
    login "a@b.c" "wrongpw" "fresh" [demoAccount]
      { initialState with user := some { id := "u9", name := "Eve", email := "e@b.c" } } =
    (false, { initialState with user := some { id := "u9", name := "Eve", email := "e@b.c" } }) :=
  login_failure_atomic "a@b.c" "wrongpw" "fresh" [demoAccount]
    { initialState with user := some { id := "u9", name := "Eve", email := "e@b.c" } }
    (by decide)

end ProManage
